import Mathlib

/-!
Verification of the Eagle energy exporter's decoder/normalizer core
(`src/main.py`) against its natural-language specification.

The embedding below translates the Python source directly:
  - `utc2000_to_epoch`, `convert_hex_to_int` embed the module-level helpers;
  - Python's builtin `int(s)` / `int(s, 16)` on the string forms appearing in
    telemetry (optional sign for decimal, optional `0x`/`0X` prefix for hex,
    digits; the whitespace and underscore grouping Python also tolerates never
    occur in these payloads and are not modelled);
  - Python floats are modelled by exact rationals (`ℚ`);
  - Python dicts are modelled by insertion-ordered association lists;
  - the process-global device registry is passed explicitly, and exceptions
    carry the registry as it stands when they are raised (Python exceptions
    do not roll back mutations of the global registry).
-/

/-- Value of one decimal digit character, as Python's `int` accepts it. -/
def digitVal? (c : Char) : Option ℕ :=
  if '0' ≤ c ∧ c ≤ '9' then some (c.toNat - '0'.toNat) else none

/-- Value of one hexadecimal digit character, as Python's `int(_, 16)` accepts it. -/
def hexDigitVal? (c : Char) : Option ℕ :=
  if '0' ≤ c ∧ c ≤ '9' then some (c.toNat - '0'.toNat)
  else if 'a' ≤ c ∧ c ≤ 'f' then some (c.toNat - 'a'.toNat + 10)
  else if 'A' ≤ c ∧ c ≤ 'F' then some (c.toNat - 'A'.toNat + 10)
  else none

/-- Accumulating decimal parse; fails on any non-digit character. -/
def decDigitsValAux : ℕ → List Char → Option ℕ
  | acc, [] => some acc
  | acc, c :: rest =>
    match digitVal? c with
    | none => none
    | some d => decDigitsValAux (10 * acc + d) rest

/-- Parse a non-empty all-digits string to its value; `none` otherwise. -/
def decDigitsVal? (l : List Char) : Option ℕ :=
  match l with
  | [] => none
  | _ => decDigitsValAux 0 l

/-- Accumulating hexadecimal parse; fails on any non-hex-digit character. -/
def hexDigitsValAux : ℕ → List Char → Option ℕ
  | acc, [] => some acc
  | acc, c :: rest =>
    match hexDigitVal? c with
    | none => none
    | some d => hexDigitsValAux (16 * acc + d) rest

/-- Parse a non-empty all-hex-digits string to its value; `none` otherwise. -/
def hexDigitsVal? (l : List Char) : Option ℕ :=
  match l with
  | [] => none
  | _ => hexDigitsValAux 0 l

/-- Python `int(s, 16)` on the non-negative hex strings the telemetry uses:
an optional `0x` or `0X` prefix followed by hex digits. -/
def pyIntHexChars? (l : List Char) : Option ℕ :=
  if l.take 2 = ['0', 'x'] ∨ l.take 2 = ['0', 'X'] then hexDigitsVal? (l.drop 2)
  else hexDigitsVal? l

/-- Python `int(s, 16)`, string form. -/
def pyIntHex? (s : String) : Option ℕ := pyIntHexChars? s.toList

/-- Characters Python's `int()` strips around a decimal string, within the
ASCII range: space, tab, newline, vertical tab, form feed, carriage return
(the separator control characters `\x1c`-`\x1f` are NOT stripped by `int()`,
although `str.isspace` accepts them). -/
def isPySpace (c : Char) : Bool :=
  c = ' ' || c = '\t' || c = '\n' || c = '\x0b' || c = '\x0c' || c = '\r'

/-- Continuation of `int()`'s digit run after at least one digit: further
digits, with single underscores allowed only between two digits. -/
def pyDecTail? : ℕ → List Char → Option ℕ
  | acc, [] => some acc
  | acc, '_' :: rest =>
    match rest with
    | [] => none
    | c :: rest' =>
      match digitVal? c with
      | none => none
      | some d => pyDecTail? (10 * acc + d) rest'
  | acc, c :: rest =>
    match digitVal? c with
    | none => none
    | some d => pyDecTail? (10 * acc + d) rest

/-- A non-empty digit run for `int()`: leading digit required, then
`pyDecTail?` (so no leading, trailing, or doubled underscore). -/
def pyDecDigits? : List Char → Option ℕ
  | [] => none
  | c :: rest =>
    match digitVal? c with
    | none => none
    | some d => pyDecTail? d rest

/-- Python `int(s)` on a decimal string: surrounding whitespace stripped, one
optional sign, then digits with single underscores allowed between digits.
Exact for strings in the ASCII range; the non-ASCII decimal digits and
whitespace `int()` also accepts, which no Eagle payload contains, are not
modelled. -/
def pyIntDec? (s : String) : Option ℤ :=
  match ((s.toList.dropWhile isPySpace).reverse.dropWhile isPySpace).reverse with
  | '-' :: rest => (pyDecDigits? rest).map (fun n => -(n : ℤ))
  | '+' :: rest => (pyDecDigits? rest).map (fun n => (n : ℤ))
  | l => (pyDecDigits? l).map (fun n => (n : ℤ))

/-- Stated from the claim's words, for comparison with `pyIntDec?`: a decimal
integer literal — an optional sign followed by decimal digits only (no
whitespace, no underscore grouping). -/
def isDecimalIntLiteral (s : String) : Bool :=
  match s.toList with
  | '-' :: rest => (decDigitsVal? rest).isSome
  | '+' :: rest => (decDigitsVal? rest).isSome
  | l => (decDigitsVal? l).isSome

/-- Python `s.rstrip('s')`: drop every trailing `'s'` character. -/
def rstripS (s : String) : String :=
  String.mk (((s.toList.reverse.dropWhile (fun c => c = 's'))).reverse)

/-- Embeds `utc2000_to_epoch` from `src/main.py`: shift a seconds-since-2000 count to
Unix epoch seconds. -/
def utc2000_to_epoch (seconds : ℤ) : ℤ :=
  let unix2000_time : ℤ := 946684800
  seconds + unix2000_time

/-- Embeds `convert_hex_to_int` from `src/main.py`: drop the first two characters
(`hex_num[2:]`), parse the rest with `int(_, 16)`, and subtract `2^32` when the
unsigned value is at least `0x80000000`.  `none` models the `ValueError` /
`TypeError` Python raises on unparsable input. -/
def convert_hex_to_int (hex_num : String) : Option ℤ :=
  match pyIntHexChars? (hex_num.toList.drop 2) with
  | none => none
  | some value =>
    some (if 0x80000000 ≤ value then (value : ℤ) - 0x100000000 else (value : ℤ))

/-! ## XML documents

A parsed XML element as `xml.etree.ElementTree` presents it: a tag, its
attributes, its text content (`none` models Python's `None`), and its child
elements in document order. -/

mutual

inductive Xml : Type where
  | mk (tag : String) (attrs : List (String × String)) (text : Option String)
       (children : XmlForest)

inductive XmlForest : Type where
  | nil
  | cons (x : Xml) (rest : XmlForest)
end

/-- Build a forest from a list of elements (document order preserved). -/
def XmlForest.ofList : List Xml → XmlForest
  | [] => .nil
  | x :: xs => .cons x (XmlForest.ofList xs)

def Xml.tag : Xml → String
  | .mk t _ _ _ => t

def Xml.attrs : Xml → List (String × String)
  | .mk _ a _ _ => a

def Xml.text : Xml → Option String
  | .mk _ _ tx _ => tx

def Xml.children : Xml → XmlForest
  | .mk _ _ _ c => c

/-- Python `len(element) == 0`: whether an element has no children (the basis of
`Element` truthiness). -/
def XmlForest.isEmpty : XmlForest → Bool
  | .nil => true
  | .cons _ _ => false

/-- First element with the given tag among a forest's elements and their
descendants, in document (preorder) order: the search behind
`Element.find(".//Tag")`. -/
def findDescF (t : String) : XmlForest → Option Xml
  | .nil => none
  | .cons (Xml.mk tg a tx ch) rest =>
    if tg = t then some (Xml.mk tg a tx ch)
    else
      match findDescF t ch with
      | some r => some r
      | none => findDescF t rest

/-- Python `x.find(".//" + t)`: first descendant of `x` (excluding `x` itself) with
tag `t`, in document order. -/
def findDesc (t : String) (x : Xml) : Option Xml :=
  findDescF t x.children

/-- First element of a forest satisfying a direct-child tag test. -/
def XmlForest.findTag (t : String) : XmlForest → Option Xml
  | .nil => none
  | .cons c rest => if c.tag = t then some c else XmlForest.findTag t rest

/-- Python `x.find(t)` for a plain tag path: first direct child with tag `t`. -/
def findChild (x : Xml) (t : String) : Option Xml :=
  XmlForest.findTag t x.children

/-- Python `x.findtext(".//" + t, default=None)`: text of the first matching
descendant (the empty string when the element has no text), `none` when no
element matches. -/
def findtextDesc (x : Xml) (t : String) : Option String :=
  (findDesc t x).map (fun e => (Xml.text e).getD "")

/-- Python `sec.findtext(t, default=None)` for a direct-child tag path. -/
def childFindtext (sec : Xml) (t : String) : Option String :=
  (findChild sec t).map (fun e => (Xml.text e).getD "")

/-! ## Python dicts as insertion-ordered association lists -/

/-- Python `d.get(k)` / `d[k]` lookup. -/
def dictGet {α : Type} (l : List (String × α)) (k : String) : Option α :=
  (l.find? (fun p => p.1 == k)).map Prod.snd

/-- Python `d[k] = v`: overwrite in place when the key exists, append otherwise
(Python dicts keep insertion order). -/
def dictSet {α : Type} : List (String × α) → String → α → List (String × α)
  | [], k, v => [(k, v)]
  | (k', v') :: rest, k, v =>
    if k' = k then (k, v) :: rest else (k', v') :: dictSet rest k v

/-! ## Data model: registry entries, parser state, error kinds -/

/-- One entry of `EagleParse._global_config`: the accumulated label dict
(values are `Optional[str]` in Python, hence `Option String`) and the two
readiness flags. -/
structure DeviceEntry where
  labels : List (String × Option String)
  device_info_received : Bool
  network_info_received : Bool
deriving DecidableEq

/-- The instance state of an `EagleParse` object plus the process-global
registry it aliases: `_global_config`, the resolved device identity (`none`
when `_labels` stayed `None`), `self.timestamp`, and `self._metric`. -/
structure ParseState where
  registry : List (String × DeviceEntry)
  deviceId : Option String
  timestamp : ℤ
  metric : List (String × List (String × ℚ))
deriving DecidableEq

/-- The dict returned by a successful, gated `get_metric_labels`. -/
structure Bundle where
  metric : List (String × List (String × ℚ))
  labels : List (String × Option String)
  timestamp : ℤ
deriving DecidableEq

/-- The exceptions the decode path can raise.  `badTimestampAttr` is the
`ValueError` from `int()` on the root timestamp attribute; `missingField`
covers the `AttributeError`/`TypeError` from a required sub-element being
absent or empty; `badHex` the `ValueError` from `int(_, 16)`;
`demandOutOfRange` the explicit sanity-bound `Exception` with its context;
`attributeNoState` the `AttributeError` from touching `self._state` when
`__init__` never assigned it (no `DeviceMacId` in the payload). -/
inductive EagleError : Type where
  | badTimestampAttr (raw : String)
  | missingField (tag : String)
  | badHex (tag : String)
  | demandOutOfRange (demand : ℚ) (multiplier divisor : ℤ) (timestamp : ℤ)
  | attributeNoState
deriving DecidableEq

instance {ε α : Type} [DecidableEq ε] [DecidableEq α] : DecidableEq (Except ε α) :=
  fun a b =>
    match a, b with
    | .ok x, .ok y =>
      match decEq x y with
      | isTrue h => isTrue (by rw [h])
      | isFalse h => isFalse (by intro hc; cases hc; exact h rfl)
    | .error x, .error y =>
      match decEq x y with
      | isTrue h => isTrue (by rw [h])
      | isFalse h => isFalse (by intro hc; cases hc; exact h rfl)
    | .ok _, .error _ => isFalse (by intro hc; cases hc)
    | .error _, .ok _ => isFalse (by intro hc; cases hc)

/-- Read a required hex sub-field of a section:
`convert_hex_to_int(sec.find(t).text)`. -/
def readHexField (sec : Xml) (t : String) : Except EagleError ℤ :=
  match findChild sec t with
  | none => .error (.missingField t)
  | some e =>
    match e.text with
    | none => .error (.missingField t)
    | some s =>
      match convert_hex_to_int s with
      | none => .error (.badHex t)
      | some v => .ok v

/-- Read a section's required `TimeStamp` sub-field:
`int(sec.find("TimeStamp").text, 16)` (plain unsigned hex, no sign
adjustment). -/
def readTimeStamp (sec : Xml) : Except EagleError ℕ :=
  match findChild sec "TimeStamp" with
  | none => .error (.missingField "TimeStamp")
  | some e =>
    match e.text with
    | none => .error (.missingField "TimeStamp")
    | some s =>
      match pyIntHex? s with
      | none => .error (.badHex "TimeStamp")
      | some v => .ok v

/-- Python `x if x != 0 else 1`: the multiplier/divisor defaulting in both numeric
sections. -/
def defaultZeroToOne (x : ℤ) : ℤ :=
  if x = 0 then 1 else x

/-- The shared conversion `(raw * multiplier) / divisor` (after defaulting),
performed in Python float arithmetic, modelled exactly over `ℚ`. -/
def convertReading (raw multiplier divisor : ℤ) : ℚ :=
  Rat.divInt (raw * defaultZeroToOne multiplier) (defaultZeroToOne divisor)

/-- The device identity as `__init__` resolves it:
`self.root.findtext(".//DeviceMacId", None)`, with the empty string treated
as absent by the `if device_mac_id:` truthiness test. -/
def resolveDeviceId (root : Xml) : Option String :=
  match findtextDesc root "DeviceMacId" with
  | none => none
  | some s => if s = "" then none else some s

/-- Embeds `EagleParse.__init__`: parse the root timestamp attribute (trailing `'s'`
stripped, falling back to the wall clock `now` when absent or zero), resolve
the device identity, and lazily create its registry entry (initial labels:
identity, client host, then any operator-supplied per-device overrides). -/
def eagleInit (root : Xml) (client_host : String)
    (optLabels : List (String × List (String × String)))
    (registry : List (String × DeviceEntry)) (now : ℤ) :
    Except EagleError ParseState :=
  match pyIntDec? (rstripS ((dictGet root.attrs "timestamp").getD "0")) with
  | none => .error (.badTimestampAttr ((dictGet root.attrs "timestamp").getD "0"))
  | some tsVal =>
    match resolveDeviceId root with
    | none => .ok ⟨registry, none, if tsVal = 0 then now else tsVal, []⟩
    | some dmid =>
      match dictGet registry dmid with
      | some _ => .ok ⟨registry, some dmid, if tsVal = 0 then now else tsVal, []⟩
      | none =>
        match dictGet optLabels dmid with
        | some extra =>
          .ok ⟨dictSet registry dmid
            ⟨extra.foldl (fun acc p => dictSet acc p.1 (some p.2))
              [("device_mac_id", some dmid), ("client_host", some client_host)],
             false, false⟩, some dmid, if tsVal = 0 then now else tsVal, []⟩
        | none =>
          .ok ⟨dictSet registry dmid
            ⟨[("device_mac_id", some dmid), ("client_host", some client_host)],
             false, false⟩, some dmid, if tsVal = 0 then now else tsVal, []⟩

/-- Embeds `EagleParse._parse_instantaneous_demand`.  Errors carry the registry as it
stands, since Python exceptions do not roll back the global registry. -/
def parseInstantaneousDemand (root : Xml) (st : ParseState) :
    Except (EagleError × List (String × DeviceEntry)) ParseState :=
  match findDesc "InstantaneousDemand" root with
  | none => .ok st
  | some sec =>
    match readHexField sec "Demand" with
    | .error e => .error (e, st.registry)
    | .ok demand0 =>
      match readHexField sec "Multiplier" with
      | .error e => .error (e, st.registry)
      | .ok multiplier0 =>
        match readHexField sec "Divisor" with
        | .error e => .error (e, st.registry)
        | .ok divisor0 =>
          match readTimeStamp sec with
          | .error e => .error (e, st.registry)
          | .ok ts =>
            if convertReading demand0 multiplier0 divisor0 > 1000 ∨
                convertReading demand0 multiplier0 divisor0 < -1000 then
              .error (.demandOutOfRange (convertReading demand0 multiplier0 divisor0)
                (defaultZeroToOne multiplier0) (defaultZeroToOne divisor0)
                (utc2000_to_epoch (ts : ℤ)), st.registry)
            else
              .ok { st with
                timestamp := utc2000_to_epoch (ts : ℤ),
                metric := dictSet st.metric "instantaneous_demand"
                  [("demand", convertReading demand0 multiplier0 divisor0)] }

/-- The truthiness-based alternate-section lookup
`root.find("CurrentSummationDelivered") or root.find("CurrentSummation")`:
an `Element` is falsy when it has no children. -/
def pyElemOr (a b : Option Xml) : Option Xml :=
  match a with
  | some e => if e.children.isEmpty then b else some e
  | none => b

/-- Embeds `EagleParse._parse_current_summation`. -/
def parseCurrentSummation (root : Xml) (st : ParseState) :
    Except (EagleError × List (String × DeviceEntry)) ParseState :=
  match pyElemOr (findChild root "CurrentSummationDelivered")
      (findChild root "CurrentSummation") with
  | none => .ok st
  | some sec =>
    match readHexField sec "SummationDelivered" with
    | .error e => .error (e, st.registry)
    | .ok sd0 =>
      match readHexField sec "SummationReceived" with
      | .error e => .error (e, st.registry)
      | .ok sr0 =>
        match readHexField sec "Multiplier" with
        | .error e => .error (e, st.registry)
        | .ok multiplier0 =>
          match readHexField sec "Divisor" with
          | .error e => .error (e, st.registry)
          | .ok divisor0 =>
            match readTimeStamp sec with
            | .error e => .error (e, st.registry)
            | .ok ts =>
              .ok { st with
                timestamp := utc2000_to_epoch (ts : ℤ),
                metric := dictSet st.metric "current_summation"
                  [("summation_delivered", convertReading sd0 multiplier0 divisor0),
                   ("summation_received", convertReading sr0 multiplier0 divisor0)] }

/-- Embeds `EagleParse._parse_device_info`: marks `device_info_received` and writes
the four label fields (values may be Python `None`).  When `__init__` resolved
no device identity, `self._state` does not exist and Python raises
`AttributeError` before any mutation. -/
def parseDeviceInfo (root : Xml) (st : ParseState) :
    Except (EagleError × List (String × DeviceEntry)) ParseState :=
  match findDesc "DeviceInfo" root with
  | none => .ok st
  | some sec =>
    match st.deviceId with
    | none => .error (.attributeNoState, st.registry)
    | some dmid =>
      .ok { st with
        registry := dictSet st.registry dmid
          { (dictGet st.registry dmid).getD ⟨[], false, false⟩ with
            device_info_received := true,
            labels := dictSet (dictSet (dictSet (dictSet
              ((dictGet st.registry dmid).getD ⟨[], false, false⟩).labels
              "fw_version" (childFindtext sec "FWVersion"))
              "hw_version" (childFindtext sec "HWVersion"))
              "manufacturer" (childFindtext sec "Manufacturer"))
              "model_id" (childFindtext sec "ModelId") } }

/-- Embeds `EagleParse._parse_network_info`: marks `network_info_received` first and
only then parses `LinkStrength` with `int(_, 16)`, so a malformed link
strength raises after the flag mutation has landed in the registry. -/
def parseNetworkInfo (root : Xml) (st : ParseState) :
    Except (EagleError × List (String × DeviceEntry)) ParseState :=
  match findDesc "NetworkInfo" root with
  | none => .ok st
  | some sec =>
    match st.deviceId with
    | none => .error (.attributeNoState, st.registry)
    | some dmid =>
      match childFindtext sec "LinkStrength" with
      | none =>
        .ok { st with
          registry := dictSet st.registry dmid
            { (dictGet st.registry dmid).getD ⟨[], false, false⟩ with
              network_info_received := true } }
      | some s =>
        match pyIntHex? s with
        | none =>
          .error (.badHex "LinkStrength",
            dictSet st.registry dmid
              { (dictGet st.registry dmid).getD ⟨[], false, false⟩ with
                network_info_received := true })
        | some v =>
          .ok { st with
            registry := dictSet st.registry dmid
              { (dictGet st.registry dmid).getD ⟨[], false, false⟩ with
                network_info_received := true },
            metric := dictSet st.metric "network_info" [("link_strength", (v : ℚ))] }

/-- Embeds `EagleParse.parse`: the four section parsers, in the fixed source order. -/
def eagleParse (root : Xml) (st : ParseState) :
    Except (EagleError × List (String × DeviceEntry)) ParseState :=
  match parseInstantaneousDemand root st with
  | .error er => .error er
  | .ok st =>
    match parseCurrentSummation root st with
    | .error er => .error er
    | .ok st =>
      match parseDeviceInfo root st with
      | .error er => .error er
      | .ok st => parseNetworkInfo root st

/-- The registry after `get_metric_labels` has merged a present, truthy,
non-sentinel `MeterMacId` into the gated device's persisted labels
(`self._labels['meter_mac_id'] = meter_mac_id`). -/
def meterRegistry (root : Xml) (st : ParseState) (dmid : String) :
    List (String × DeviceEntry) :=
  match findtextDesc root "MeterMacId" with
  | none => st.registry
  | some m =>
    if m ≠ "" ∧ m ≠ "0x0000000000000000" then
      dictSet st.registry dmid
        { (dictGet st.registry dmid).getD ⟨[], false, false⟩ with
          labels := dictSet
            ((dictGet st.registry dmid).getD ⟨[], false, false⟩).labels
            "meter_mac_id" (some m) }
    else st.registry

/-- Embeds `EagleParse.get_metric_labels`: empty dict unless the identity was
resolved and both registry flags are set; otherwise merge a non-empty,
non-sentinel `MeterMacId` into the persisted labels and return the bundle.
Returns the (possibly label-augmented) registry alongside. -/
def get_metric_labels (root : Xml) (st : ParseState) :
    List (String × DeviceEntry) × Option Bundle :=
  match st.deviceId with
  | none => (st.registry, none)
  | some dmid =>
    if ((dictGet st.registry dmid).getD ⟨[], false, false⟩).device_info_received ∧
        ((dictGet st.registry dmid).getD ⟨[], false, false⟩).network_info_received then
      (meterRegistry root st dmid,
       some ⟨st.metric,
         ((dictGet (meterRegistry root st dmid) dmid).getD ⟨[], false, false⟩).labels,
         st.timestamp⟩)
    else (st.registry, none)

/-- One payload end to end: `__init__`, `parse`, `get_metric_labels`.
`.ok (registry, bundle)` gives the registry after the payload and the bundle
(`none` for the empty dict); `.error (e, registry)` gives the exception and
the registry as the exception leaves it. -/
def processPayload (root : Xml) (client_host : String)
    (optLabels : List (String × List (String × String)))
    (registry : List (String × DeviceEntry)) (now : ℤ) :
    Except (EagleError × List (String × DeviceEntry))
      (List (String × DeviceEntry) × Option Bundle) :=
  match eagleInit root client_host optLabels registry now with
  | .error e => .error (e, registry)
  | .ok st =>
    match eagleParse root st with
    | .error er => .error er
    | .ok st => .ok (get_metric_labels root st)

/-- Timestamp of the bundle a payload run published, when it published one. -/
def publishedTimestamp?
    (r : Except (EagleError × List (String × DeviceEntry))
      (List (String × DeviceEntry) × Option Bundle)) : Option ℤ :=
  match r with
  | .ok (_, some b) => some b.timestamp
  | _ => none

/-- A payload whose root carries `timestamp="1000000000s"` together with the
sections needed to pass gating on first sight, and no section-local
`TimeStamp`. -/
def xmlDocLevelTs : Xml :=
  Xml.mk "rainforest" [("timestamp", "1000000000s")] none (.ofList
    [Xml.mk "DeviceMacId" [] (some "0xd8d5b90000000001") .nil,
     Xml.mk "DeviceInfo" [] none (.ofList [Xml.mk "FWVersion" [] (some "2.1.0") .nil]),
     Xml.mk "NetworkInfo" [] none .nil])

/-- A payload carrying a device identity, a device-info section, and a
network-info section whose `LinkStrength` text is not valid hex. -/
def xmlBadLinkStrength : Xml :=
  Xml.mk "rainforest" [("timestamp", "5")] none (.ofList
    [Xml.mk "DeviceMacId" [] (some "0xd8d5b90000000002") .nil,
     Xml.mk "DeviceInfo" [] none (.ofList [Xml.mk "FWVersion" [] (some "2.1.0") .nil]),
     Xml.mk "NetworkInfo" [] none (.ofList [Xml.mk "LinkStrength" [] (some "zz") .nil])])

/-- A well-formed payload with a device-info section but no device identity
element. -/
def xmlNoIdentityDeviceInfo : Xml :=
  Xml.mk "rainforest" [("timestamp", "5")] none (.ofList
    [Xml.mk "DeviceInfo" [] none .nil])

/-- A well-formed payload with no device identity element and only an
instantaneous-demand section. -/
def xmlNoIdentityDemandOnly : Xml :=
  Xml.mk "rainforest" [("timestamp", "5")] none (.ofList
    [Xml.mk "InstantaneousDemand" [] none (.ofList
      [Xml.mk "Demand" [] (some "0x00000001") .nil,
       Xml.mk "Multiplier" [] (some "0x00000001") .nil,
       Xml.mk "Divisor" [] (some "0x000003e8") .nil,
       Xml.mk "TimeStamp" [] (some "0x00000010") .nil])])

/-- A summation section with `TimeStamp` hex `0x00000020` (32). -/
def xmlSummSec : Xml :=
  Xml.mk "CurrentSummationDelivered" [] none (.ofList
    [Xml.mk "SummationDelivered" [] (some "0x00000002") .nil,
     Xml.mk "SummationReceived" [] (some "0x00000003") .nil,
     Xml.mk "Multiplier" [] (some "0x00000001") .nil,
     Xml.mk "Divisor" [] (some "0x00000001") .nil,
     Xml.mk "TimeStamp" [] (some "0x00000020") .nil])

/-- A payload carrying both a demand section (`TimeStamp` 16) and a summation
section (`TimeStamp` 32). -/
def xmlBothSections : Xml :=
  Xml.mk "rainforest" [("timestamp", "5")] none (.ofList
    [Xml.mk "InstantaneousDemand" [] none (.ofList
      [Xml.mk "Demand" [] (some "0x00000001") .nil,
       Xml.mk "Multiplier" [] (some "0x00000001") .nil,
       Xml.mk "Divisor" [] (some "0x000003e8") .nil,
       Xml.mk "TimeStamp" [] (some "0x00000010") .nil]),
     xmlSummSec])

/-- A registry entry that has passed gating (both flags true). -/
def entGated : DeviceEntry :=
  ⟨[("device_mac_id", some "0xd8d5b90000000003"), ("client_host", some "10.0.0.9")],
   true, true⟩

/-- Post-parse state for the gated device `0xd8d5b90000000003`. -/
def stGated : ParseState :=
  ⟨[("0xd8d5b90000000003", entGated)], some "0xd8d5b90000000003", 7, []⟩

/-- A document carrying a non-sentinel `MeterMacId`. -/
def xmlWithMeter : Xml :=
  Xml.mk "rainforest" [] none (.ofList
    [Xml.mk "MeterMacId" [] (some "0x00000000000000ab") .nil])

/-- A payload run that raised the demand sanity-bound exception. -/
def failsWithDemandOutOfRange
    (r : Except (EagleError × List (String × DeviceEntry))
      (List (String × DeviceEntry) × Option Bundle)) : Prop :=
  ∃ q m d t reg, r = .error (.demandOutOfRange q m d t, reg)

/-- A well-formed demand section computing demand 2000 (out of range). -/
def xmlDemandHighSec : Xml :=
  Xml.mk "InstantaneousDemand" [] none (.ofList
    [Xml.mk "Demand" [] (some "0x000007d0") .nil,
     Xml.mk "Multiplier" [] (some "0x00000001") .nil,
     Xml.mk "Divisor" [] (some "0x00000001") .nil,
     Xml.mk "TimeStamp" [] (some "0x00000010") .nil])

/-- A payload whose demand section computes 2000 with multiplier 1 and
divisor 1. -/
def xmlDemandHigh : Xml :=
  Xml.mk "rainforest" [("timestamp", "1000000000s")] none (.ofList
    [Xml.mk "DeviceMacId" [] (some "0xd8d5b90000000001") .nil,
     xmlDemandHighSec])

/-- The parser state `EagleParse.__init__` produces for `xmlDemandHigh` on an
empty registry. -/
def stDemandHigh : ParseState :=
  ⟨[("0xd8d5b90000000001",
     ⟨[("device_mac_id", some "0xd8d5b90000000001"), ("client_host", some "10.0.0.9")],
      false, false⟩)],
   some "0xd8d5b90000000001", 1000000000, []⟩

/-- Labels accumulated for `xmlDocLevelTs` after its device-info section. -/
def labelsDocTs : List (String × Option String) :=
  [("device_mac_id", some "0xd8d5b90000000001"), ("client_host", some "10.0.0.9"),
   ("fw_version", some "2.1.0"), ("hw_version", none),
   ("manufacturer", none), ("model_id", none)]

/-- Registry after processing `xmlDocLevelTs` from an empty registry. -/
def regAfterDocTs : List (String × DeviceEntry) :=
  [("0xd8d5b90000000001", ⟨labelsDocTs, true, true⟩)]

/-- Bundle published for `xmlDocLevelTs`. -/
def bundleDocTs : Bundle := ⟨[], labelsDocTs, 1000000000⟩

theorem hexDigitVal?_x : hexDigitVal? 'x' = none := by decide

theorem hexDigitVal?_X : hexDigitVal? 'X' = none := by decide

theorem hexDigitVal?_0 : hexDigitVal? '0' = some 0 := by decide

theorem pyIntHexChars?_of_hexDigits (l : List Char) (u : ℕ)
    (h : hexDigitsVal? l = some u) : pyIntHexChars? l = some u := by
  unfold pyIntHexChars?
  split_ifs with hc
  · exfalso
    rcases l with _ | ⟨a, _ | ⟨b, rest⟩⟩
    · simp [List.take] at hc
    · simp [List.take] at hc
    · simp only [List.take] at hc
      rcases hc with ⟨rfl, rfl⟩ | ⟨rfl, rfl⟩ <;>
        simp [hexDigitsVal?, hexDigitsValAux, hexDigitVal?_0, hexDigitVal?_x,
          hexDigitVal?_X] at h
  · exact h

/-- C2: `convert_hex_to_int` on `"0x"` followed by hex digits denoting an
unsigned 32-bit pattern `u` returns `u` when `u < 2^31` and `u - 2^32`
otherwise; the result is negative exactly when `u ≥ 0x80000000`, and the
result is the unique 32-bit two's-complement preimage of `u`. -/
theorem convert_hex_to_int_twos_complement (l : List Char) (u : ℕ)
    (hl : hexDigitsVal? l = some u) (hu : u < 2 ^ 32) :
    ∃ v : ℤ, convert_hex_to_int (String.mk ('0' :: 'x' :: l)) = some v ∧
      v = (if u < 2 ^ 31 then (u : ℤ) else (u : ℤ) - 2 ^ 32) ∧
      (v < 0 ↔ 2 ^ 31 ≤ u) ∧ (0 ≤ v ↔ u < 2 ^ 31) ∧
      v % (2 ^ 32 : ℤ) = (u : ℤ) ∧ -(2 ^ 31) ≤ v ∧ v < 2 ^ 31 := by
  refine ⟨if u < 2 ^ 31 then (u : ℤ) else (u : ℤ) - 2 ^ 32, ?_, rfl, ?_, ?_, ?_, ?_, ?_⟩
  · unfold convert_hex_to_int
    rw [show (String.mk ('0' :: 'x' :: l)).toList.drop 2 = l from rfl,
      pyIntHexChars?_of_hexDigits l u hl]
    show some (if 0x80000000 ≤ u then (u : ℤ) - 0x100000000 else (u : ℤ)) = _
    by_cases h : u < 2 ^ 31
    · rw [if_neg (by omega), if_pos h]
    · rw [if_pos (by omega), if_neg h]
      norm_num
  all_goals split_ifs with h <;> omega

/-- Witness for C2 at the concrete input `"0xffffffff"`. -/
theorem convert_hex_to_int_twos_complement_witness :
    ∃ v : ℤ,
      convert_hex_to_int
        (String.mk ('0' :: 'x' :: 'f' :: 'f' :: 'f' :: 'f' :: 'f' :: 'f' :: 'f' :: 'f' :: [])) =
        some v ∧
      v = (if (4294967295 : ℕ) < 2 ^ 31 then ((4294967295 : ℕ) : ℤ)
           else ((4294967295 : ℕ) : ℤ) - 2 ^ 32) ∧
      (v < 0 ↔ 2 ^ 31 ≤ (4294967295 : ℕ)) ∧ (0 ≤ v ↔ (4294967295 : ℕ) < 2 ^ 31) ∧
      v % (2 ^ 32 : ℤ) = ((4294967295 : ℕ) : ℤ) ∧ -(2 ^ 31) ≤ v ∧ v < 2 ^ 31 :=
  convert_hex_to_int_twos_complement
    ('f' :: 'f' :: 'f' :: 'f' :: 'f' :: 'f' :: 'f' :: 'f' :: []) 4294967295
    (by decide) (by norm_num)

theorem convertReading_eq_div (raw multiplier divisor : ℤ) :
    convertReading raw multiplier divisor =
      ((raw * defaultZeroToOne multiplier : ℤ) : ℚ) /
        ((defaultZeroToOne divisor : ℤ) : ℚ) := by
  rw [convertReading, Rat.divInt_eq_div]

theorem parseInstantaneousDemand_absent (root : Xml) (st : ParseState)
    (h : findDesc "InstantaneousDemand" root = none) :
    parseInstantaneousDemand root st = .ok st := by
  unfold parseInstantaneousDemand
  rw [h]

theorem parseCurrentSummation_absent (root : Xml) (st : ParseState)
    (h : pyElemOr (findChild root "CurrentSummationDelivered")
        (findChild root "CurrentSummation") = none) :
    parseCurrentSummation root st = .ok st := by
  unfold parseCurrentSummation
  rw [h]

theorem parseDeviceInfo_ok_fields (root : Xml) (st st' : ParseState)
    (h : parseDeviceInfo root st = .ok st') :
    st'.timestamp = st.timestamp ∧ st'.deviceId = st.deviceId ∧
      st'.metric = st.metric := by
  unfold parseDeviceInfo at h
  split at h
  · cases h
    exact ⟨rfl, rfl, rfl⟩
  · split at h
    · exact Except.noConfusion h
    · cases h
      exact ⟨rfl, rfl, rfl⟩

theorem parseNetworkInfo_ok_fields (root : Xml) (st st' : ParseState)
    (h : parseNetworkInfo root st = .ok st') :
    st'.timestamp = st.timestamp ∧ st'.deviceId = st.deviceId := by
  unfold parseNetworkInfo at h
  split at h
  · cases h
    exact ⟨rfl, rfl⟩
  · split at h
    · exact Except.noConfusion h
    · split at h
      · cases h
        exact ⟨rfl, rfl⟩
      · split at h
        · exact Except.noConfusion h
        · cases h
          exact ⟨rfl, rfl⟩

/-- C5: a multiplier or divisor decoding to exactly 0 is independently
replaced by 1 before `value = (raw_reading * multiplier) / divisor`, so the
conversion with multiplier (resp. divisor) 0 — the decode of hex
`0x00000000` — equals the conversion with 1 — the decode of `0x00000001`;
the effective divisor is never 0 (no division by zero) and the result is 0
exactly when the raw reading is 0 (no forced-zero output). -/
theorem multiplier_divisor_zero_defaulted (raw multiplier divisor : ℤ) :
    convertReading raw 0 divisor = convertReading raw 1 divisor ∧
    convertReading raw multiplier 0 = convertReading raw multiplier 1 ∧
    defaultZeroToOne multiplier ≠ 0 ∧
    defaultZeroToOne divisor ≠ 0 ∧
    (convertReading raw multiplier divisor = 0 ↔ raw = 0) ∧
    convert_hex_to_int
      (String.mk ('0' :: 'x' :: '0' :: '0' :: '0' :: '0' :: '0' :: '0' :: '0' :: '0' :: [])) =
      some 0 ∧
    convert_hex_to_int
      (String.mk ('0' :: 'x' :: '0' :: '0' :: '0' :: '0' :: '0' :: '0' :: '0' :: '1' :: [])) =
      some 1 := by
  have hdflt : ∀ x : ℤ, defaultZeroToOne x ≠ 0 := by
    intro x
    unfold defaultZeroToOne
    split_ifs with h
    · exact one_ne_zero
    · exact h
  refine ⟨?_, ?_, hdflt multiplier, hdflt divisor, ?_, by decide, by decide⟩
  · simp [convertReading, defaultZeroToOne]
  · simp [convertReading, defaultZeroToOne]
  · rw [convertReading, Rat.divInt_eq_zero (hdflt divisor), mul_eq_zero]
    constructor
    · rintro (h | h)
      · exact h
      · exact absurd h (hdflt multiplier)
    · intro h
      exact Or.inl h

/-- C10 counterexample: the attribute value `" 12"` (after stripping trailing
`'s'` characters) is not a decimal integer literal, yet constructing the
parser on the well-formed document `<rainforest timestamp=" 12"/>` succeeds,
because Python's `int(" 12")` strips the surrounding whitespace and returns
12 — refuting the claim that a non-literal timestamp attribute always makes
construction fail. -/
theorem timestamp_attr_nonliteral_accepted :
    isDecimalIntLiteral (rstripS " 12") = false ∧
    eagleInit (Xml.mk "rainforest" [("timestamp", " 12")] none .nil)
      "10.0.0.9" [] [] 555 = .ok ⟨[], none, 12, []⟩ :=
  ⟨by decide, by decide⟩

/-- C10 amended: for a root timestamp attribute in the modelled (ASCII)
character range, construction fails with the `int()` error exactly when the
attribute value, after stripping trailing `'s'` characters, is not accepted
by Python's `int()` — an optionally signed digit string, with single
underscores allowed between digits and surrounding whitespace allowed; so
`"12h"` and the empty string are rejected, while `" 12"` and `"1_2"` are
accepted although they are not bare decimal literals.  Successful
construction therefore guarantees the attribute was absent or
`int()`-parseable. -/
theorem timestamp_attr_must_be_int_parseable
    (root : Xml) (client_host : String)
    (optLabels : List (String × List (String × String)))
    (registry : List (String × DeviceEntry)) (now : ℤ) (v : String)
    (hattr : dictGet root.attrs "timestamp" = some v)
    (_hascii : v.toList.all (fun c => c.toNat < 128) = true) :
    (pyIntDec? (rstripS v) = none →
      eagleInit root client_host optLabels registry now =
        .error (.badTimestampAttr v)) ∧
    (∀ st, eagleInit root client_host optLabels registry now = .ok st →
      ∃ n, pyIntDec? (rstripS v) = some n) ∧
    pyIntDec? (rstripS "12h") = none ∧ pyIntDec? (rstripS "") = none ∧
    pyIntDec? (rstripS " 12") = some 12 ∧ pyIntDec? (rstripS "1_2") = some 12 := by
  refine ⟨?_, ?_, by decide, by decide, by decide, by decide⟩
  · intro hnone
    unfold eagleInit
    rw [hattr]
    simp only [Option.getD_some, hnone]
  · intro st hok
    cases h : pyIntDec? (rstripS v) with
    | some n => exact ⟨n, rfl⟩
    | none =>
      exfalso
      unfold eagleInit at hok
      rw [hattr] at hok
      simp only [Option.getD_some, h] at hok
      exact Except.noConfusion hok

/-- Witness for the amended C10 at a concrete document whose timestamp
attribute is `"12h"`. -/
theorem timestamp_attr_must_be_int_parseable_witness :
    (pyIntDec? (rstripS "12h") = none →
      eagleInit (Xml.mk "rainforest" [("timestamp", "12h")] none .nil)
        "10.0.0.9" [] [] 555 = .error (.badTimestampAttr "12h")) ∧
    (∀ st,
      eagleInit (Xml.mk "rainforest" [("timestamp", "12h")] none .nil)
        "10.0.0.9" [] [] 555 = .ok st → ∃ n, pyIntDec? (rstripS "12h") = some n) ∧
    pyIntDec? (rstripS "12h") = none ∧ pyIntDec? (rstripS "") = none ∧
    pyIntDec? (rstripS " 12") = some 12 ∧ pyIntDec? (rstripS "1_2") = some 12 :=
  timestamp_attr_must_be_int_parseable
    (Xml.mk "rainforest" [("timestamp", "12h")] none .nil) "10.0.0.9" [] [] 555 "12h"
    (by decide) (by decide)

theorem eagleInit_ok_of_parse (root : Xml) (client_host : String)
    (optLabels : List (String × List (String × String)))
    (registry : List (String × DeviceEntry)) (now : ℤ) (v : String) (n : ℤ)
    (hattr : dictGet root.attrs "timestamp" = some v)
    (hv : pyIntDec? (rstripS v) = some n) :
    ∃ st, eagleInit root client_host optLabels registry now = .ok st := by
  cases hres : eagleInit root client_host optLabels registry now with
  | ok st => exact ⟨st, rfl⟩
  | error e =>
    exfalso
    unfold eagleInit at hres
    rw [hattr] at hres
    simp only [Option.getD_some, hv] at hres
    repeat' split at hres
    all_goals exact Except.noConfusion hres

theorem eagleInit_ok_fields (root : Xml) (client_host : String)
    (optLabels : List (String × List (String × String)))
    (registry : List (String × DeviceEntry)) (now : ℤ) (st : ParseState)
    (hok : eagleInit root client_host optLabels registry now = .ok st) :
    st.deviceId = resolveDeviceId root ∧ st.metric = [] ∧
    ∃ tsVal, pyIntDec? (rstripS ((dictGet root.attrs "timestamp").getD "0")) =
        some tsVal ∧
      st.timestamp = (if tsVal = 0 then now else tsVal) := by
  unfold eagleInit at hok
  split at hok
  · exact Except.noConfusion hok
  · rename_i tsVal hts
    split at hok
    · rename_i hr
      cases hok
      exact ⟨hr.symm, rfl, tsVal, hts, rfl⟩
    · rename_i dmid hr
      split at hok
      · rename_i e hreg
        cases hok
        exact ⟨hr.symm, rfl, tsVal, hts, rfl⟩
      · split at hok
        · rename_i extra hopt
          cases hok
          exact ⟨hr.symm, rfl, tsVal, hts, rfl⟩
        · cases hok
          exact ⟨hr.symm, rfl, tsVal, hts, rfl⟩

/-- C3 counterexample: with root attribute `timestamp="1000000000s"` and no
section-local `TimeStamp`, the published timestamp is `1000000000` itself,
not `1000000000 + 946684800` as the claim would require. -/
theorem doc_timestamp_offset_counterexample :
    publishedTimestamp? (processPayload xmlDocLevelTs "10.0.0.9" [] [] 555) =
      some 1000000000 ∧
    publishedTimestamp? (processPayload xmlDocLevelTs "10.0.0.9" [] [] 555) ≠
      some (1000000000 + 946684800) := by
  constructor
  · decide
  · decide

/-- C3 amended: the resolved payload timestamp (absent any section-local
`TimeStamp`) is the root attribute with trailing `'s'` stripped, parsed as a
decimal integer and used directly as Unix epoch seconds, with no offset
added (the 946684800 offset is applied only to section-local UTC-2000
timestamps). -/
theorem doc_timestamp_used_directly (root : Xml) (client_host : String)
    (optLabels : List (String × List (String × String)))
    (registry : List (String × DeviceEntry)) (now : ℤ) (v : String) (n : ℤ)
    (hattr : dictGet root.attrs "timestamp" = some v)
    (hv : pyIntDec? (rstripS v) = some n) (hn : n ≠ 0) :
    ∃ st, eagleInit root client_host optLabels registry now = .ok st ∧
      st.timestamp = n ∧
      (findDesc "InstantaneousDemand" root = none →
        pyElemOr (findChild root "CurrentSummationDelivered")
          (findChild root "CurrentSummation") = none →
        ∀ st', eagleParse root st = .ok st' → st'.timestamp = n) := by
  obtain ⟨st, hok⟩ :=
    eagleInit_ok_of_parse root client_host optLabels registry now v n hattr hv
  obtain ⟨-, -, tsVal, htv, hts⟩ :=
    eagleInit_ok_fields root client_host optLabels registry now st hok
  rw [hattr] at htv
  simp only [Option.getD_some, hv] at htv
  injection htv with hnv
  subst hnv
  refine ⟨st, hok, by rw [hts, if_neg hn], ?_⟩
  intro hd hs st' hparse
  unfold eagleParse at hparse
  simp only [parseInstantaneousDemand_absent root st hd,
    parseCurrentSummation_absent root st hs] at hparse
  cases h3 : parseDeviceInfo root st with
  | error e =>
    simp only [h3] at hparse
    exact Except.noConfusion hparse
  | ok st3 =>
    simp only [h3] at hparse
    obtain ⟨ht3, -, -⟩ := parseDeviceInfo_ok_fields root st st3 h3
    obtain ⟨ht4, -⟩ := parseNetworkInfo_ok_fields root st3 st' hparse
    rw [ht4, ht3, hts, if_neg hn]

/-- Witness for the amended C3 at the concrete document `xmlDocLevelTs`. -/
theorem doc_timestamp_used_directly_witness :
    ∃ st, eagleInit xmlDocLevelTs "10.0.0.9" [] [] 555 = .ok st ∧
      st.timestamp = 1000000000 ∧
      (findDesc "InstantaneousDemand" xmlDocLevelTs = none →
        pyElemOr (findChild xmlDocLevelTs "CurrentSummationDelivered")
          (findChild xmlDocLevelTs "CurrentSummation") = none →
        ∀ st', eagleParse xmlDocLevelTs st = .ok st' → st'.timestamp = 1000000000) :=
  doc_timestamp_used_directly xmlDocLevelTs "10.0.0.9" [] [] 555 "1000000000s" 1000000000
    (by decide) (by decide) (by decide)

/-- C7: per-payload registry updates are NOT all-or-nothing.  Starting from an
empty registry, this payload fails decoding (`int("zz", 16)` raises inside the
network-info section), yet the exception leaves the device's registry entry
with both readiness flags already set to `true` and the device-info labels
already written — the mutations made by sections processed earlier in the same
payload persist. -/
theorem registry_mutations_survive_failure :
    processPayload xmlBadLinkStrength "10.0.0.9" [] [] 555 =
      .error (.badHex "LinkStrength",
        [("0xd8d5b90000000002",
          ⟨[("device_mac_id", some "0xd8d5b90000000002"),
            ("client_host", some "10.0.0.9"),
            ("fw_version", some "2.1.0"), ("hw_version", none),
            ("manufacturer", none), ("model_id", none)],
           true, true⟩)]) := by decide

/-- C8: processing a payload whose device-identity element is absent IS an
error whenever a device-info (or network-info) section is present: `__init__`
never assigned `self._state`, so `_parse_device_info` raises `AttributeError`.
Absent those sections the run indeed completes without failure, touches no
registry entry, and yields an empty bundle. -/
theorem missing_identity_device_info_crashes :
    processPayload xmlNoIdentityDeviceInfo "10.0.0.9" [] [] 555 =
      .error (.attributeNoState, []) ∧
    processPayload xmlNoIdentityDemandOnly "10.0.0.9" [] [] 555 = .ok ([], none) :=
  ⟨by decide, by decide⟩

theorem parseInstantaneousDemand_ok_reg (root : Xml) (st st' : ParseState)
    (h : parseInstantaneousDemand root st = .ok st') :
    st'.registry = st.registry ∧ st'.deviceId = st.deviceId := by
  unfold parseInstantaneousDemand at h
  repeat' split at h
  all_goals first
    | exact Except.noConfusion h
    | (cases h; exact ⟨rfl, rfl⟩)

theorem parseCurrentSummation_ok_reg (root : Xml) (st st' : ParseState)
    (h : parseCurrentSummation root st = .ok st') :
    st'.registry = st.registry ∧ st'.deviceId = st.deviceId := by
  unfold parseCurrentSummation at h
  repeat' split at h
  all_goals first
    | exact Except.noConfusion h
    | (cases h; exact ⟨rfl, rfl⟩)

theorem parseInstantaneousDemand_ok_timestamp (root sec : Xml) (ts : ℕ)
    (st st' : ParseState)
    (hsec : findDesc "InstantaneousDemand" root = some sec)
    (hts : readTimeStamp sec = .ok ts)
    (h : parseInstantaneousDemand root st = .ok st') :
    st'.timestamp = utc2000_to_epoch (ts : ℤ) := by
  unfold parseInstantaneousDemand at h
  simp only [hsec] at h
  split at h
  · exact Except.noConfusion h
  · split at h
    · exact Except.noConfusion h
    · split at h
      · exact Except.noConfusion h
      · split at h
        · exact Except.noConfusion h
        · rename_i ts' hts'
          rw [hts'] at hts
          injection hts with hh
          subst hh
          split at h
          · exact Except.noConfusion h
          · cases h
            rfl

theorem parseCurrentSummation_ok_timestamp (root sec : Xml) (ts : ℕ)
    (st st' : ParseState)
    (hsec : pyElemOr (findChild root "CurrentSummationDelivered")
        (findChild root "CurrentSummation") = some sec)
    (hts : readTimeStamp sec = .ok ts)
    (h : parseCurrentSummation root st = .ok st') :
    st'.timestamp = utc2000_to_epoch (ts : ℤ) := by
  unfold parseCurrentSummation at h
  simp only [hsec] at h
  split at h
  · exact Except.noConfusion h
  · split at h
    · exact Except.noConfusion h
    · split at h
      · exact Except.noConfusion h
      · split at h
        · exact Except.noConfusion h
        · split at h
          · exact Except.noConfusion h
          · rename_i ts' hts'
            rw [hts'] at hts
            injection hts with hh
            subst hh
            cases h
            rfl

/-- C6: when a section carries its own `TimeStamp`, the resolved payload
timestamp is `utc2000_to_epoch` of it, superseding the document-level value;
the sections are applied in the fixed order demand-then-summation, so a
summation section's timestamp wins whenever that section is present, and the
demand section's timestamp is the resolved one when no summation section is
present. -/
theorem section_local_timestamp_supersedes (root sec : Xml) (ts : ℕ)
    (hts : readTimeStamp sec = .ok ts) :
    (pyElemOr (findChild root "CurrentSummationDelivered")
        (findChild root "CurrentSummation") = some sec →
      ∀ st st', eagleParse root st = .ok st' →
        st'.timestamp = utc2000_to_epoch (ts : ℤ)) ∧
    (pyElemOr (findChild root "CurrentSummationDelivered")
        (findChild root "CurrentSummation") = none →
      findDesc "InstantaneousDemand" root = some sec →
      ∀ st st', eagleParse root st = .ok st' →
        st'.timestamp = utc2000_to_epoch (ts : ℤ)) := by
  constructor
  · intro hsec st st' h
    unfold eagleParse at h
    cases h1 : parseInstantaneousDemand root st with
    | error e =>
      simp only [h1] at h
      exact Except.noConfusion h
    | ok st1 =>
      simp only [h1] at h
      cases h2 : parseCurrentSummation root st1 with
      | error e =>
        simp only [h2] at h
        exact Except.noConfusion h
      | ok st2 =>
        simp only [h2] at h
        have hts2 := parseCurrentSummation_ok_timestamp root sec ts st1 st2 hsec hts h2
        cases h3 : parseDeviceInfo root st2 with
        | error e =>
          simp only [h3] at h
          exact Except.noConfusion h
        | ok st3 =>
          simp only [h3] at h
          obtain ⟨ht3, -, -⟩ := parseDeviceInfo_ok_fields root st2 st3 h3
          obtain ⟨ht4, -⟩ := parseNetworkInfo_ok_fields root st3 st' h
          rw [ht4, ht3, hts2]
  · intro hnone hdem st st' h
    unfold eagleParse at h
    cases h1 : parseInstantaneousDemand root st with
    | error e =>
      simp only [h1] at h
      exact Except.noConfusion h
    | ok st1 =>
      simp only [h1, parseCurrentSummation_absent root st1 hnone] at h
      have hts1 := parseInstantaneousDemand_ok_timestamp root sec ts st st1 hdem hts h1
      cases h3 : parseDeviceInfo root st1 with
      | error e =>
        simp only [h3] at h
        exact Except.noConfusion h
      | ok st3 =>
        simp only [h3] at h
        obtain ⟨ht3, -, -⟩ := parseDeviceInfo_ok_fields root st1 st3 h3
        obtain ⟨ht4, -⟩ := parseNetworkInfo_ok_fields root st3 st' h
        rw [ht4, ht3, hts1]

/-- Witness for C6 at `xmlBothSections`, whose summation section's
`TimeStamp` is 32. -/
theorem section_local_timestamp_supersedes_witness :
    (pyElemOr (findChild xmlBothSections "CurrentSummationDelivered")
        (findChild xmlBothSections "CurrentSummation") = some xmlSummSec →
      ∀ st st', eagleParse xmlBothSections st = .ok st' →
        st'.timestamp = utc2000_to_epoch ((32 : ℕ) : ℤ)) ∧
    (pyElemOr (findChild xmlBothSections "CurrentSummationDelivered")
        (findChild xmlBothSections "CurrentSummation") = none →
      findDesc "InstantaneousDemand" xmlBothSections = some xmlSummSec →
      ∀ st st', eagleParse xmlBothSections st = .ok st' →
        st'.timestamp = utc2000_to_epoch ((32 : ℕ) : ℤ)) :=
  section_local_timestamp_supersedes xmlBothSections xmlSummSec 32 rfl

theorem dictGet_dictSet_self {α : Type} (l : List (String × α)) (k : String) (v : α) :
    dictGet (dictSet l k v) k = some v := by
  induction l with
  | nil => simp [dictSet, dictGet]
  | cons p rest ih =>
    obtain ⟨k', v'⟩ := p
    by_cases hk : k' = k
    · subst hk
      simp [dictSet, dictGet]
    · have hb : (k' == k) = false := beq_eq_false_iff_ne.mpr hk
      simp only [dictSet, if_neg hk, dictGet, List.find?, hb]
      exact ih

theorem dictGet_dictSet_ne {α : Type} (l : List (String × α)) (k k' : String) (v : α)
    (h : k' ≠ k) : dictGet (dictSet l k v) k' = dictGet l k' := by
  have hb : (k == k') = false := beq_eq_false_iff_ne.mpr (Ne.symm h)
  induction l with
  | nil => simp [dictSet, dictGet, List.find?, hb]
  | cons p rest ih =>
    obtain ⟨k0, v0⟩ := p
    by_cases hk : k0 = k
    · subst hk
      simp [dictSet, dictGet, List.find?, hb]
    · simp only [dictSet, if_neg hk, dictGet, List.find?]
      cases hb0 : (k0 == k') with
      | true => rfl
      | false => exact ih

/-- C9: on every qualifying (gated) call of `get_metric_labels`, a present
`MeterMacId` that is non-empty and differs from the all-zero sentinel is
written into the device's persisted label set (and appears in the returned
bundle's labels) — on every such call, whatever the entry's current labels
are; an absent, empty, or sentinel `MeterMacId` leaves the registry exactly
unchanged, so the sentinel is never added as a label. -/
theorem meter_mac_id_label_policy (root : Xml) (st : ParseState)
    (dmid : String) (entry : DeviceEntry)
    (hid : st.deviceId = some dmid)
    (hentry : dictGet st.registry dmid = some entry)
    (hdev : entry.device_info_received = true)
    (hnet : entry.network_info_received = true) :
    (∀ m, findtextDesc root "MeterMacId" = some m → m ≠ "" →
      m ≠ "0x0000000000000000" →
      get_metric_labels root st =
        (dictSet st.registry dmid
          { entry with labels := dictSet entry.labels "meter_mac_id" (some m) },
         some ⟨st.metric, dictSet entry.labels "meter_mac_id" (some m),
           st.timestamp⟩) ∧
      dictGet (dictSet entry.labels "meter_mac_id" (some m)) "meter_mac_id" =
        some (some m)) ∧
    ((findtextDesc root "MeterMacId" = none ∨
      findtextDesc root "MeterMacId" = some "" ∨
      findtextDesc root "MeterMacId" = some "0x0000000000000000") →
      get_metric_labels root st =
        (st.registry, some ⟨st.metric, entry.labels, st.timestamp⟩)) := by
  constructor
  · intro m hm hne hns
    refine ⟨?_, dictGet_dictSet_self entry.labels "meter_mac_id" (some m)⟩
    unfold get_metric_labels meterRegistry
    simp only [hid, hentry, Option.getD_some, hm]
    rw [if_pos ⟨hdev, hnet⟩, if_pos ⟨hne, hns⟩]
    simp only [dictGet_dictSet_self, Option.getD_some]
  · intro hcase
    unfold get_metric_labels meterRegistry
    simp only [hid, hentry, Option.getD_some]
    rw [if_pos ⟨hdev, hnet⟩]
    rcases hcase with hc | hc | hc
    · simp only [hc, hentry, Option.getD_some]
    · simp only [hc]
      rw [if_neg (by simp)]
      simp only [hentry, Option.getD_some]
    · simp only [hc]
      rw [if_neg (by simp)]
      simp only [hentry, Option.getD_some]

/-- Witness for C9 at the gated state `stGated` and document `xmlWithMeter`. -/
theorem meter_mac_id_label_policy_witness :
    (∀ m, findtextDesc xmlWithMeter "MeterMacId" = some m → m ≠ "" →
      m ≠ "0x0000000000000000" →
      get_metric_labels xmlWithMeter stGated =
        (dictSet stGated.registry "0xd8d5b90000000003"
          { entGated with labels := dictSet entGated.labels "meter_mac_id" (some m) },
         some ⟨stGated.metric, dictSet entGated.labels "meter_mac_id" (some m),
           stGated.timestamp⟩) ∧
      dictGet (dictSet entGated.labels "meter_mac_id" (some m)) "meter_mac_id" =
        some (some m)) ∧
    ((findtextDesc xmlWithMeter "MeterMacId" = none ∨
      findtextDesc xmlWithMeter "MeterMacId" = some "" ∨
      findtextDesc xmlWithMeter "MeterMacId" = some "0x0000000000000000") →
      get_metric_labels xmlWithMeter stGated =
        (stGated.registry, some ⟨stGated.metric, entGated.labels, stGated.timestamp⟩)) :=
  meter_mac_id_label_policy xmlWithMeter stGated "0xd8d5b90000000003" entGated
    rfl rfl rfl rfl

theorem readHexField_error (sec : Xml) (t : String) (e : EagleError)
    (h : readHexField sec t = .error e) :
    e = .missingField t ∨ e = .badHex t := by
  unfold readHexField at h
  repeat' split at h
  all_goals first
    | exact Except.noConfusion h
    | (injection h with hh; exact Or.inl hh.symm)
    | (injection h with hh; exact Or.inr hh.symm)

theorem readTimeStamp_error (sec : Xml) (e : EagleError)
    (h : readTimeStamp sec = .error e) :
    e = .missingField "TimeStamp" ∨ e = .badHex "TimeStamp" := by
  unfold readTimeStamp at h
  repeat' split at h
  all_goals first
    | exact Except.noConfusion h
    | (injection h with hh; exact Or.inl hh.symm)
    | (injection h with hh; exact Or.inr hh.symm)

theorem parseCurrentSummation_no_door (root : Xml) (st : ParseState)
    (q : ℚ) (m d t : ℤ) (reg' : List (String × DeviceEntry))
    (h : parseCurrentSummation root st = .error (.demandOutOfRange q m d t, reg')) :
    False := by
  unfold parseCurrentSummation at h
  repeat' split at h
  all_goals first
    | exact Except.noConfusion h
    | (rename_i e0 heq0
       injection h with hh
       injection hh with he hr
       first
         | (rcases readHexField_error _ _ _ heq0 with h1 | h1 <;>
             (rw [h1] at he; exact EagleError.noConfusion he))
         | (rcases readTimeStamp_error _ _ heq0 with h1 | h1 <;>
             (rw [h1] at he; exact EagleError.noConfusion he)))

theorem parseDeviceInfo_no_door (root : Xml) (st : ParseState)
    (q : ℚ) (m d t : ℤ) (reg' : List (String × DeviceEntry))
    (h : parseDeviceInfo root st = .error (.demandOutOfRange q m d t, reg')) :
    False := by
  unfold parseDeviceInfo at h
  repeat' split at h
  all_goals first
    | exact Except.noConfusion h
    | (injection h with hh
       injection hh with he hr
       exact EagleError.noConfusion he)

theorem parseNetworkInfo_no_door (root : Xml) (st : ParseState)
    (q : ℚ) (m d t : ℤ) (reg' : List (String × DeviceEntry))
    (h : parseNetworkInfo root st = .error (.demandOutOfRange q m d t, reg')) :
    False := by
  unfold parseNetworkInfo at h
  repeat' split at h
  all_goals first
    | exact Except.noConfusion h
    | (injection h with hh
       injection hh with he hr
       exact EagleError.noConfusion he)

theorem parseInstantaneousDemand_eval (root sec : Xml) (st : ParseState)
    (demand0 multiplier0 divisor0 : ℤ) (ts : ℕ)
    (hsec : findDesc "InstantaneousDemand" root = some sec)
    (hd : readHexField sec "Demand" = .ok demand0)
    (hm : readHexField sec "Multiplier" = .ok multiplier0)
    (hdv : readHexField sec "Divisor" = .ok divisor0)
    (hts : readTimeStamp sec = .ok ts) :
    parseInstantaneousDemand root st =
      if convertReading demand0 multiplier0 divisor0 > 1000 ∨
          convertReading demand0 multiplier0 divisor0 < -1000 then
        .error (.demandOutOfRange (convertReading demand0 multiplier0 divisor0)
          (defaultZeroToOne multiplier0) (defaultZeroToOne divisor0)
          (utc2000_to_epoch (ts : ℤ)), st.registry)
      else
        .ok { st with
          timestamp := utc2000_to_epoch (ts : ℤ),
          metric := dictSet st.metric "instantaneous_demand"
            [("demand", convertReading demand0 multiplier0 divisor0)] } := by
  unfold parseInstantaneousDemand
  simp only [hsec, hd, hm, hdv, hts]

theorem eagleParse_door_from_demand (root : Xml) (st : ParseState)
    (q : ℚ) (m d t : ℤ) (reg : List (String × DeviceEntry))
    (h : eagleParse root st = .error (.demandOutOfRange q m d t, reg)) :
    ∃ reg0, parseInstantaneousDemand root st =
      .error (.demandOutOfRange q m d t, reg0) := by
  unfold eagleParse at h
  cases h1 : parseInstantaneousDemand root st with
  | error er =>
    obtain ⟨e1, r1⟩ := er
    simp only [h1] at h
    injection h with hh
    injection hh with he hr
    subst he
    exact ⟨r1, rfl⟩
  | ok st1 =>
    exfalso
    simp only [h1] at h
    cases h2 : parseCurrentSummation root st1 with
    | error er =>
      obtain ⟨e2, r2⟩ := er
      simp only [h2] at h
      injection h with hh
      injection hh with he hr
      subst he
      exact parseCurrentSummation_no_door root st1 q m d t r2 h2
    | ok st2 =>
      simp only [h2] at h
      cases h3 : parseDeviceInfo root st2 with
      | error er =>
        obtain ⟨e3, r3⟩ := er
        simp only [h3] at h
        injection h with hh
        injection hh with he hr
        subst he
        exact parseDeviceInfo_no_door root st2 q m d t r3 h3
      | ok st3 =>
        simp only [h3] at h
        exact parseNetworkInfo_no_door root st3 q m d t reg h

/-- C4: for a payload whose instantaneous-demand section is present and
well-formed (all four sub-fields decode), the decode fails with the
`DemandOutOfRange` error exactly when the computed value
`(raw * multiplier) / divisor` (after zero-defaulting) lies outside
`[-1000, 1000]`; on such a failure the run produces no bundle (so no demand
metric is recorded), and the summation parser can never raise
`DemandOutOfRange`, whatever its values. -/
theorem demand_sanity_bound (root : Xml) (client_host : String)
    (optLabels : List (String × List (String × String)))
    (registry : List (String × DeviceEntry)) (now : ℤ) (sec : Xml)
    (demand0 multiplier0 divisor0 : ℤ) (ts : ℕ) (st : ParseState)
    (hsec : findDesc "InstantaneousDemand" root = some sec)
    (hd : readHexField sec "Demand" = .ok demand0)
    (hm : readHexField sec "Multiplier" = .ok multiplier0)
    (hdv : readHexField sec "Divisor" = .ok divisor0)
    (hts : readTimeStamp sec = .ok ts)
    (hinit : eagleInit root client_host optLabels registry now = .ok st) :
    (failsWithDemandOutOfRange (processPayload root client_host optLabels registry now) ↔
      (convertReading demand0 multiplier0 divisor0 > 1000 ∨
       convertReading demand0 multiplier0 divisor0 < -1000)) ∧
    (failsWithDemandOutOfRange (processPayload root client_host optLabels registry now) →
      ∀ reg' b, processPayload root client_host optLabels registry now ≠ .ok (reg', b)) ∧
    (∀ root2 st2 q m d t reg2,
      parseCurrentSummation root2 st2 ≠ .error (.demandOutOfRange q m d t, reg2)) := by
  have heval := parseInstantaneousDemand_eval root sec st demand0 multiplier0 divisor0 ts
    hsec hd hm hdv hts
  have hback : (convertReading demand0 multiplier0 divisor0 > 1000 ∨
      convertReading demand0 multiplier0 divisor0 < -1000) →
      processPayload root client_host optLabels registry now =
        .error (.demandOutOfRange (convertReading demand0 multiplier0 divisor0)
          (defaultZeroToOne multiplier0) (defaultZeroToOne divisor0)
          (utc2000_to_epoch (ts : ℤ)), st.registry) := by
    intro hc
    have h1 : parseInstantaneousDemand root st =
        .error (.demandOutOfRange (convertReading demand0 multiplier0 divisor0)
          (defaultZeroToOne multiplier0) (defaultZeroToOne divisor0)
          (utc2000_to_epoch (ts : ℤ)), st.registry) := by
      rw [heval, if_pos hc]
    unfold processPayload
    simp only [hinit]
    unfold eagleParse
    simp only [h1]
  have hfwd : failsWithDemandOutOfRange
      (processPayload root client_host optLabels registry now) →
      (convertReading demand0 multiplier0 divisor0 > 1000 ∨
       convertReading demand0 multiplier0 divisor0 < -1000) := by
    rintro ⟨q, m, d, t, reg, hfail⟩
    unfold processPayload at hfail
    simp only [hinit] at hfail
    by_cases hc : (convertReading demand0 multiplier0 divisor0 > 1000 ∨
        convertReading demand0 multiplier0 divisor0 < -1000)
    · exact hc
    · exfalso
      cases he2 : eagleParse root st with
      | ok pr =>
        simp only [he2] at hfail
        exact Except.noConfusion hfail
      | error er =>
        simp only [he2] at hfail
        injection hfail with hh
        obtain ⟨reg0, hdm⟩ := eagleParse_door_from_demand root st q m d t reg
          (by rw [he2, hh])
        rw [heval, if_neg hc] at hdm
        exact Except.noConfusion hdm
  refine ⟨⟨hfwd, ?_⟩, ?_, ?_⟩
  · intro hc
    exact ⟨convertReading demand0 multiplier0 divisor0, defaultZeroToOne multiplier0,
      defaultZeroToOne divisor0, utc2000_to_epoch (ts : ℤ), st.registry, hback hc⟩
  · rintro hfail reg' b heq
    have hc := hfwd hfail
    rw [hback hc] at heq
    exact Except.noConfusion heq
  · intro root2 st2 q m d t reg2 hcontra
    exact parseCurrentSummation_no_door root2 st2 q m d t reg2 hcontra

/-- Witness for C4 at `xmlDemandHigh` (demand 2000, multiplier 1, divisor 1). -/
theorem demand_sanity_bound_witness :
    (failsWithDemandOutOfRange (processPayload xmlDemandHigh "10.0.0.9" [] [] 555) ↔
      (convertReading 2000 1 1 > 1000 ∨ convertReading 2000 1 1 < -1000)) ∧
    (failsWithDemandOutOfRange (processPayload xmlDemandHigh "10.0.0.9" [] [] 555) →
      ∀ reg' b, processPayload xmlDemandHigh "10.0.0.9" [] [] 555 ≠ .ok (reg', b)) ∧
    (∀ root2 st2 q m d t reg2,
      parseCurrentSummation root2 st2 ≠ .error (.demandOutOfRange q m d t, reg2)) :=
  demand_sanity_bound xmlDemandHigh "10.0.0.9" [] [] 555 xmlDemandHighSec
    2000 1 1 16 stDemandHigh rfl rfl rfl rfl rfl (by decide)

theorem eagleInit_ok_fresh_entry (root : Xml) (client_host : String)
    (optLabels : List (String × List (String × String)))
    (registry : List (String × DeviceEntry)) (now : ℤ) (st : ParseState)
    (dmid : String)
    (hid : resolveDeviceId root = some dmid)
    (hfresh : dictGet registry dmid = none)
    (hok : eagleInit root client_host optLabels registry now = .ok st) :
    ∃ labels0, dictGet st.registry dmid = some ⟨labels0, false, false⟩ := by
  unfold eagleInit at hok
  split at hok
  · exact Except.noConfusion hok
  · rename_i tsVal hts
    split at hok
    · rename_i hr
      rw [hid] at hr
      exact Option.noConfusion hr
    · rename_i dmid' hr
      rw [hid] at hr
      injection hr with he
      subst he
      split at hok
      · rename_i e hreg
        rw [hfresh] at hreg
        exact Option.noConfusion hreg
      · split at hok
        · rename_i extra hopt
          cases hok
          exact ⟨_, dictGet_dictSet_self _ _ _⟩
        · cases hok
          exact ⟨_, dictGet_dictSet_self _ _ _⟩

theorem parseDeviceInfo_eval (root sec : Xml) (st : ParseState) (dmid : String)
    (hsec : findDesc "DeviceInfo" root = some sec)
    (hid : st.deviceId = some dmid) :
    parseDeviceInfo root st = .ok { st with
      registry := dictSet st.registry dmid
        { (dictGet st.registry dmid).getD ⟨[], false, false⟩ with
          device_info_received := true,
          labels := dictSet (dictSet (dictSet (dictSet
            ((dictGet st.registry dmid).getD ⟨[], false, false⟩).labels
            "fw_version" (childFindtext sec "FWVersion"))
            "hw_version" (childFindtext sec "HWVersion"))
            "manufacturer" (childFindtext sec "Manufacturer"))
            "model_id" (childFindtext sec "ModelId") } } := by
  unfold parseDeviceInfo
  simp only [hsec, hid]

theorem parseNetworkInfo_entry (root : Xml) (st st' : ParseState) (dmid : String)
    (e : DeviceEntry)
    (h : parseNetworkInfo root st = .ok st')
    (hid : st.deviceId = some dmid)
    (hentry : dictGet st.registry dmid = some e) :
    ∃ e', dictGet st'.registry dmid = some e' ∧ e'.labels = e.labels ∧
      e'.device_info_received = e.device_info_received := by
  unfold parseNetworkInfo at h
  split at h
  · cases h
    exact ⟨e, hentry, rfl, rfl⟩
  · simp only [hid, hentry, Option.getD_some] at h
    split at h
    · cases h
      exact ⟨{ e with network_info_received := true },
        dictGet_dictSet_self _ _ _, rfl, rfl⟩
    · split at h
      · exact Except.noConfusion h
      · cases h
        exact ⟨{ e with network_info_received := true },
          dictGet_dictSet_self _ _ _, rfl, rfl⟩

theorem labels_chain_get (L : List (String × Option String))
    (v1 v2 v3 v4 : Option String) :
    dictGet (dictSet (dictSet (dictSet (dictSet L "fw_version" v1)
      "hw_version" v2) "manufacturer" v3) "model_id" v4) "fw_version" = some v1 ∧
    dictGet (dictSet (dictSet (dictSet (dictSet L "fw_version" v1)
      "hw_version" v2) "manufacturer" v3) "model_id" v4) "hw_version" = some v2 ∧
    dictGet (dictSet (dictSet (dictSet (dictSet L "fw_version" v1)
      "hw_version" v2) "manufacturer" v3) "model_id" v4) "manufacturer" = some v3 ∧
    dictGet (dictSet (dictSet (dictSet (dictSet L "fw_version" v1)
      "hw_version" v2) "manufacturer" v3) "model_id" v4) "model_id" = some v4 := by
  refine ⟨?_, ?_, ?_, ?_⟩
  · rw [dictGet_dictSet_ne _ _ _ _ (by decide), dictGet_dictSet_ne _ _ _ _ (by decide),
      dictGet_dictSet_ne _ _ _ _ (by decide), dictGet_dictSet_self]
  · rw [dictGet_dictSet_ne _ _ _ _ (by decide), dictGet_dictSet_ne _ _ _ _ (by decide),
      dictGet_dictSet_self]
  · rw [dictGet_dictSet_ne _ _ _ _ (by decide), dictGet_dictSet_self]
  · rw [dictGet_dictSet_self]

theorem eagleParse_ok_deviceId (root : Xml) (st st' : ParseState)
    (h : eagleParse root st = .ok st') : st'.deviceId = st.deviceId := by
  unfold eagleParse at h
  cases h1 : parseInstantaneousDemand root st with
  | error e =>
    simp only [h1] at h
    exact Except.noConfusion h
  | ok st1 =>
    simp only [h1] at h
    obtain ⟨-, hd1⟩ := parseInstantaneousDemand_ok_reg root st st1 h1
    cases h2 : parseCurrentSummation root st1 with
    | error e =>
      simp only [h2] at h
      exact Except.noConfusion h
    | ok st2 =>
      simp only [h2] at h
      obtain ⟨-, hd2⟩ := parseCurrentSummation_ok_reg root st1 st2 h2
      cases h3 : parseDeviceInfo root st2 with
      | error e =>
        simp only [h3] at h
        exact Except.noConfusion h
      | ok st3 =>
        simp only [h3] at h
        obtain ⟨-, hd3, -⟩ := parseDeviceInfo_ok_fields root st2 st3 h3
        obtain ⟨-, hd4⟩ := parseNetworkInfo_ok_fields root st3 st' h
        rw [hd4, hd3, hd2, hd1]

theorem eagleParse_device_labels (root sec : Xml) (st st' : ParseState)
    (dmid : String)
    (hsec : findDesc "DeviceInfo" root = some sec)
    (hid : st.deviceId = some dmid)
    (h : eagleParse root st = .ok st') :
    ∃ e', dictGet st'.registry dmid = some e' ∧
      e'.device_info_received = true ∧
      dictGet e'.labels "fw_version" = some (childFindtext sec "FWVersion") ∧
      dictGet e'.labels "hw_version" = some (childFindtext sec "HWVersion") ∧
      dictGet e'.labels "manufacturer" = some (childFindtext sec "Manufacturer") ∧
      dictGet e'.labels "model_id" = some (childFindtext sec "ModelId") := by
  unfold eagleParse at h
  cases h1 : parseInstantaneousDemand root st with
  | error e =>
    simp only [h1] at h
    exact Except.noConfusion h
  | ok st1 =>
    simp only [h1] at h
    obtain ⟨hr1, hd1⟩ := parseInstantaneousDemand_ok_reg root st st1 h1
    cases h2 : parseCurrentSummation root st1 with
    | error e =>
      simp only [h2] at h
      exact Except.noConfusion h
    | ok st2 =>
      simp only [h2] at h
      obtain ⟨hr2, hd2⟩ := parseCurrentSummation_ok_reg root st1 st2 h2
      have hid2 : st2.deviceId = some dmid := by rw [hd2, hd1, hid]
      have h3eval := parseDeviceInfo_eval root sec st2 dmid hsec hid2
      simp only [h3eval] at h
      obtain ⟨e', hg, hl, hdf⟩ := parseNetworkInfo_entry root _ st' dmid _
        h hid2 (dictGet_dictSet_self _ _ _)
      obtain ⟨g1, g2, g3, g4⟩ := labels_chain_get
        ((dictGet st2.registry dmid).getD ⟨[], false, false⟩).labels
        (childFindtext sec "FWVersion") (childFindtext sec "HWVersion")
        (childFindtext sec "Manufacturer") (childFindtext sec "ModelId")
      refine ⟨e', hg, hdf, ?_, ?_, ?_, ?_⟩ <;> rw [hl]
      · exact g1
      · exact g2
      · exact g3
      · exact g4

theorem eagleParse_no_device_flag (root : Xml) (st st' : ParseState)
    (dmid : String) (e : DeviceEntry)
    (hnosec : findDesc "DeviceInfo" root = none)
    (hid : st.deviceId = some dmid)
    (hent : dictGet st.registry dmid = some e)
    (h : eagleParse root st = .ok st') :
    ∃ e', dictGet st'.registry dmid = some e' ∧
      e'.device_info_received = e.device_info_received := by
  unfold eagleParse at h
  cases h1 : parseInstantaneousDemand root st with
  | error er =>
    simp only [h1] at h
    exact Except.noConfusion h
  | ok st1 =>
    simp only [h1] at h
    obtain ⟨hr1, hd1⟩ := parseInstantaneousDemand_ok_reg root st st1 h1
    cases h2 : parseCurrentSummation root st1 with
    | error er =>
      simp only [h2] at h
      exact Except.noConfusion h
    | ok st2 =>
      simp only [h2] at h
      obtain ⟨hr2, hd2⟩ := parseCurrentSummation_ok_reg root st1 st2 h2
      have habs : parseDeviceInfo root st2 = .ok st2 :=
        by unfold parseDeviceInfo; rw [hnosec]
      simp only [habs] at h
      have hid2 : st2.deviceId = some dmid := by rw [hd2, hd1, hid]
      have hent2 : dictGet st2.registry dmid = some e := by rw [hr2, hr1, hent]
      obtain ⟨e', hg, -, hdf⟩ := parseNetworkInfo_entry root st2 st' dmid e h hid2 hent2
      exact ⟨e', hg, hdf⟩

theorem get_metric_labels_gate_pass (root : Xml) (st : ParseState)
    (dmid : String) (entry : DeviceEntry)
    (hid : st.deviceId = some dmid)
    (hentry : dictGet st.registry dmid = some entry)
    (hdev : entry.device_info_received = true)
    (hnet : entry.network_info_received = true) :
    ∃ reg2 bb entry2, get_metric_labels root st = (reg2, some bb) ∧
      dictGet reg2 dmid = some entry2 ∧
      entry2.device_info_received = true ∧ entry2.network_info_received = true := by
  have hcases : findtextDesc root "MeterMacId" = none ∨
      ∃ m, findtextDesc root "MeterMacId" = some m := by
    cases findtextDesc root "MeterMacId" with
    | none => exact Or.inl rfl
    | some m => exact Or.inr ⟨m, rfl⟩
  unfold get_metric_labels meterRegistry
  simp only [hid, hentry, Option.getD_some]
  rw [if_pos ⟨hdev, hnet⟩]
  rcases hcases with hm | ⟨m, hm⟩
  · simp only [hm]
    exact ⟨st.registry, _, entry, rfl, hentry, hdev, hnet⟩
  · simp only [hm]
    by_cases hcond : m ≠ "" ∧ m ≠ "0x0000000000000000"
    · rw [if_pos hcond]
      simp only [dictGet_dictSet_self, Option.getD_some]
      exact ⟨_, _, _, rfl, dictGet_dictSet_self _ _ _, hdev, hnet⟩
    · rw [if_neg hcond]
      exact ⟨st.registry, _, entry, rfl, hentry, hdev, hnet⟩

theorem get_metric_labels_some_inv (root : Xml) (st : ParseState)
    (reg' : List (String × DeviceEntry)) (bb : Bundle)
    (h : get_metric_labels root st = (reg', some bb)) :
    ∃ dmid entry, st.deviceId = some dmid ∧
      dictGet st.registry dmid = some entry ∧
      entry.device_info_received = true ∧ entry.network_info_received = true := by
  unfold get_metric_labels at h
  split at h
  · injection h with h1 h2
    exact Option.noConfusion h2
  · rename_i dmid hid
    split at h
    · rename_i hcond
      cases hent : dictGet st.registry dmid with
      | none =>
        rw [hent] at hcond
        exact absurd hcond.1 (by decide)
      | some e =>
        rw [hent] at hcond
        exact ⟨dmid, e, hid, hent, hcond.1, hcond.2⟩
    · injection h with h1 h2
      exact Option.noConfusion h2

theorem get_metric_labels_none_inv (root : Xml) (st : ParseState)
    (reg' : List (String × DeviceEntry))
    (h : get_metric_labels root st = (reg', none)) : reg' = st.registry := by
  unfold get_metric_labels at h
  split at h
  · injection h with h1 h2
    exact h1.symm
  · split at h
    · injection h with h1 h2
      exact Option.noConfusion h2
    · injection h with h1 h2
      exact h1.symm

/-- C1: a successful payload run returns a non-empty bundle exactly when the
device identity was resolved and the device's registry entry has both
readiness flags true; when the bundle is empty but the payload carried a
device-info section for a resolved device, the registry entry returned by the
run has nevertheless accumulated that section's four labels; and a payload
with no device-info section whose device has no prior registry entry (e.g. a
first-sight instantaneous-demand-only payload) always yields an empty
bundle. -/
theorem gating_and_label_accumulation (root : Xml) (client_host : String)
    (optLabels : List (String × List (String × String)))
    (registry : List (String × DeviceEntry)) (now : ℤ)
    (reg' : List (String × DeviceEntry)) (b : Option Bundle)
    (hrun : processPayload root client_host optLabels registry now = .ok (reg', b)) :
    (b.isSome ↔ ∃ dmid entry, resolveDeviceId root = some dmid ∧
      dictGet reg' dmid = some entry ∧
      entry.device_info_received = true ∧ entry.network_info_received = true) ∧
    (∀ dmid sec, b = none → resolveDeviceId root = some dmid →
      findDesc "DeviceInfo" root = some sec →
      ∃ entry, dictGet reg' dmid = some entry ∧
        dictGet entry.labels "fw_version" = some (childFindtext sec "FWVersion") ∧
        dictGet entry.labels "hw_version" = some (childFindtext sec "HWVersion") ∧
        dictGet entry.labels "manufacturer" = some (childFindtext sec "Manufacturer") ∧
        dictGet entry.labels "model_id" = some (childFindtext sec "ModelId")) ∧
    (findDesc "DeviceInfo" root = none →
      (∀ dmid, resolveDeviceId root = some dmid → dictGet registry dmid = none) →
      b = none) := by
  unfold processPayload at hrun
  cases hi : eagleInit root client_host optLabels registry now with
  | error e =>
    simp only [hi] at hrun
    exact Except.noConfusion hrun
  | ok st0 =>
    simp only [hi] at hrun
    cases hp : eagleParse root st0 with
    | error er =>
      simp only [hp] at hrun
      exact Except.noConfusion hrun
    | ok st1 =>
      simp only [hp] at hrun
      injection hrun with hgml
      have hdev1 : st1.deviceId = resolveDeviceId root := by
        rw [eagleParse_ok_deviceId root st0 st1 hp]
        exact (eagleInit_ok_fields root client_host optLabels registry now st0 hi).1
      refine ⟨⟨?_, ?_⟩, ?_, ?_⟩
      · intro hb
        obtain ⟨bb, hbb⟩ := Option.isSome_iff_exists.mp hb
        rw [hbb] at hgml
        obtain ⟨dmid, entry, hid1, hent, hdv, hnt⟩ :=
          get_metric_labels_some_inv root st1 reg' bb hgml
        have hres : resolveDeviceId root = some dmid := by rw [← hdev1]; exact hid1
        obtain ⟨reg2, bb2, entry2, heq2, hget2, hdv2, hnt2⟩ :=
          get_metric_labels_gate_pass root st1 dmid entry hid1 hent hdv hnt
        rw [hgml] at heq2
        injection heq2 with hrg hbb2
        rw [hrg]
        exact ⟨dmid, entry2, hres, hget2, hdv2, hnt2⟩
      · rintro ⟨dmid, entry, hres, hent', hdv, hnt⟩
        cases hbv : b with
        | some bb => rfl
        | none =>
          exfalso
          rw [hbv] at hgml
          have hregeq : reg' = st1.registry :=
            get_metric_labels_none_inv root st1 reg' hgml
          have hid1 : st1.deviceId = some dmid := by rw [hdev1]; exact hres
          rw [hregeq] at hent'
          obtain ⟨reg2, bb2, entry2, heq2, -, -, -⟩ :=
            get_metric_labels_gate_pass root st1 dmid entry hid1 hent' hdv hnt
          rw [hgml] at heq2
          injection heq2 with hrg hbb2
          exact Option.noConfusion hbb2
      · intro dmid sec hbnone hres hsec
        rw [hbnone] at hgml
        have hregeq : reg' = st1.registry :=
          get_metric_labels_none_inv root st1 reg' hgml
        have hid0 : st0.deviceId = some dmid := by
          rw [(eagleInit_ok_fields root client_host optLabels registry now st0 hi).1]
          exact hres
        obtain ⟨e', hg, -, hfw, hhw, hman, hmod⟩ :=
          eagleParse_device_labels root sec st0 st1 dmid hsec hid0 hp
        rw [hregeq]
        exact ⟨e', hg, hfw, hhw, hman, hmod⟩
      · intro hnosec hfresh
        cases hbv : b with
        | none => rfl
        | some bb =>
          exfalso
          rw [hbv] at hgml
          obtain ⟨dmid, entry, hid1, hent, hdv, hnt⟩ :=
            get_metric_labels_some_inv root st1 reg' bb hgml
          have hres : resolveDeviceId root = some dmid := by rw [← hdev1]; exact hid1
          have hid0 : st0.deviceId = some dmid := by
            rw [(eagleInit_ok_fields root client_host optLabels registry now st0 hi).1]
            exact hres
          obtain ⟨labels0, hfr0⟩ := eagleInit_ok_fresh_entry root client_host optLabels
            registry now st0 dmid hres (hfresh dmid hres) hi
          obtain ⟨e1, hg1, hdf⟩ := eagleParse_no_device_flag root st0 st1 dmid
            ⟨labels0, false, false⟩ hnosec hid0 hfr0 hp
          rw [hg1] at hent
          injection hent with hent1
          rw [← hent1] at hdv
          rw [hdv] at hdf
          exact Bool.noConfusion hdf.symm

/-- Witness for C1 at the concrete run of `xmlDocLevelTs` from an empty
registry. -/
theorem gating_and_label_accumulation_witness :
    ((some bundleDocTs).isSome ↔ ∃ dmid entry,
      resolveDeviceId xmlDocLevelTs = some dmid ∧
      dictGet regAfterDocTs dmid = some entry ∧
      entry.device_info_received = true ∧ entry.network_info_received = true) ∧
    (∀ dmid sec, some bundleDocTs = none →
      resolveDeviceId xmlDocLevelTs = some dmid →
      findDesc "DeviceInfo" xmlDocLevelTs = some sec →
      ∃ entry, dictGet regAfterDocTs dmid = some entry ∧
        dictGet entry.labels "fw_version" = some (childFindtext sec "FWVersion") ∧
        dictGet entry.labels "hw_version" = some (childFindtext sec "HWVersion") ∧
        dictGet entry.labels "manufacturer" = some (childFindtext sec "Manufacturer") ∧
        dictGet entry.labels "model_id" = some (childFindtext sec "ModelId")) ∧
    (findDesc "DeviceInfo" xmlDocLevelTs = none →
      (∀ dmid, resolveDeviceId xmlDocLevelTs = some dmid →
        dictGet ([] : List (String × DeviceEntry)) dmid = none) →
      some bundleDocTs = none) :=
  gating_and_label_accumulation xmlDocLevelTs "10.0.0.9" [] [] 555
    regAfterDocTs (some bundleDocTs) (by decide)
